import Mathlib

/-!
Verification of the `cashflow_analysis` transaction-classification and
cash-flow-calculation pipeline (Python sources under `src/`).

Embedding conventions.

* Money (`Transaction.amount`, `Transaction.balance`, every dollar field of the
  metric records) is carried in integer cents (`Int`): the source stores exact
  two-decimal `Decimal` dollars, and every money computation of the embedded
  code is `+`, `-`, `abs`, `min`, `max`, so the cents encoding is exact.  The
  source constant `TRANSFER_AMOUNT_TOLERANCE = 0.01` (dollars) is `1` (cent).
* Genuinely rational quantities (confidences, `savings_rate`, `expense_ratio`,
  `daily_burn_rate`, the summary averages) are `ℚ`.
* A `datetime` is a calendar `Date` (year, month, day); the source's
  transactions carry midnight timestamps, so `(a - b).days` is the difference
  of the civil day numbers `Date.toDays`.  The derived `"YYYY-MM"` month key
  is the pair `YearMonth` (for four-digit years the lexicographic order on the
  zero-padded strings is exactly the year-then-month order used here).
* A compiled regex is abstracted as a `List Char → Bool` applied to the
  upper-cased description, mirroring `re.compile(p, IGNORECASE).search` on
  `description.upper()`.  General theorems quantify over arbitrary pattern
  tables; the concrete tables used by witnesses hold literal (wildcard-free)
  patterns from `src/src/core/constants.py`, for which regex search is exactly
  substring containment.
* `None`-able Python fields are `Option`; a code path that raises (in
  particular the `UnboundLocalError` path of `_calculate_month_metrics`) makes
  the embedded function return `none`.
* Transaction fields never read by the embedded operations (`type`,
  `subcategory`, `user_category`, `is_duplicate`, `is_recurring`,
  `is_anomaly`) are omitted.
-/

/-- Is `p` a prefix of `s`?  Building block for substring search. -/
def isPrefixList : List Char → List Char → Bool
  | [], _ => true
  | _ :: _, [] => false
  | p :: ps, c :: cs => (p == c) && isPrefixList ps cs

/-- Does `s` contain `pat` as a contiguous substring?  This is
`re.search` for a literal (wildcard-free) pattern. -/
def containsList (s pat : List Char) : Bool :=
  match s with
  | [] => isPrefixList pat []
  | c :: cs => isPrefixList pat (c :: cs) || containsList cs pat

/-- ASCII upper-casing of one character (`str.upper` on the source's ASCII
descriptions). -/
def upperChar (c : Char) : Char :=
  if 97 ≤ c.toNat && c.toNat ≤ 122 then Char.ofNat (c.toNat - 32) else c

/-- `description.upper()` as a character list. -/
def upperStr (s : String) : List Char := s.data.map upperChar

/-- A literal pattern from `constants.py` as a compiled matcher
(`re.compile(lit, IGNORECASE).search` over the upper-cased description is
substring containment of the upper-case literal). -/
def litPattern (lit : String) : List Char → Bool :=
  fun d => containsList d lit.data

/-- `FlowType` enum of `src/src/core/constants.py`. -/
inductive FlowType where
  | INCOME
  | EXPENSE
  | INTERNAL_TRANSFER
  | EXCLUDED
deriving DecidableEq, Repr

/-- A calendar date (the `datetime` values of the source, at day
granularity). -/
structure Date where
  year : Int
  month : Nat
  day : Nat
deriving DecidableEq, Repr

/-- Civil day number of a date (days since 1970-01-01, the standard
`days_from_civil` algorithm); `(a - b).days` of the source is
`a.toDays - b.toDays`. -/
def Date.toDays (d : Date) : Int :=
  let y : Int := if d.month ≤ 2 then d.year - 1 else d.year
  let era : Int := Int.ediv y 400
  let yoe : Int := y - era * 400
  let mp : Int := (d.month : Int) + (if 2 < d.month then -3 else 9)
  let doy : Int := Int.ediv (153 * mp + 2) 5 + (d.day : Int) - 1
  let doe : Int := yoe * 365 + Int.ediv yoe 4 - Int.ediv yoe 100 + doy
  era * 146097 + doe - 719468

/-- The `"YYYY-MM"` month key computed by `Transaction.__post_init__`
(`date.strftime("%Y-%m")`), kept as the (year, month) pair. -/
structure YearMonth where
  year : Int
  month : Nat
deriving DecidableEq, Repr

/-- Lexicographic string order of two `"YYYY-MM"` keys (what
`sorted(...unique())` uses), expressed on the pairs. -/
def ymLe (a b : YearMonth) : Bool :=
  decide (a.year < b.year) || (decide (a.year = b.year) && decide (a.month ≤ b.month))

/-- The `Transaction` dataclass of `src/src/core/models.py` (the fields the
classifier and the calculators read; money in cents). -/
structure Transaction where
  date : Date
  description : String
  amount : Int
  balance : Int
  flow_type : Option FlowType := none
  category : Option String := none
  confidence : ℚ := 0
  has_pair : Bool := false
  pair_id : Option (Date × Int) := none
  user_verified : Bool := false
  year_month : YearMonth := ⟨0, 0⟩

instance : Inhabited Transaction :=
  ⟨{ date := ⟨0, 1, 1⟩, description := "", amount := 0, balance := 0 }⟩

/-- Transaction construction: `__post_init__` derives `year_month` from the
date. -/
def mkTransaction (date : Date) (description : String) (amount balance : Int) :
    Transaction :=
  { date := date, description := description, amount := amount,
    balance := balance, year_month := ⟨date.year, date.month⟩ }

/-- `CategorizationResult` of `src/src/core/models.py` (the fields the flow
classifier fills). -/
structure CategorizationResult where
  flow_type : FlowType
  category : String
  confidence : ℚ
  method : String
deriving Repr

/-- Confidence constants of `constants.py` (`0.9`, `0.7`, `0.5`). -/
def CONFIDENCE_HIGH : ℚ := 9 / 10

/-- `CONFIDENCE_MEDIUM = 0.7`. -/
def CONFIDENCE_MEDIUM : ℚ := 7 / 10

/-- `CONFIDENCE_LOW = 0.5`. -/
def CONFIDENCE_LOW : ℚ := 1 / 2

/-- `TRANSFER_MATCH_DAYS = 3`. -/
def TRANSFER_MATCH_DAYS : Int := 3

/-- `TRANSFER_AMOUNT_TOLERANCE = 0.01` dollars, i.e. one cent. -/
def TRANSFER_AMOUNT_TOLERANCE : Int := 1

/-- The compiled pattern tables held by `FlowTypeClassifier`
(`EXCLUDED_CATEGORIES`, `INTERNAL_TRANSFER_CATEGORIES`, `INCOME_CATEGORIES`
after `_compile_patterns`): per category, a list of compiled matchers. -/
structure PatternTables where
  excluded : List (String × List (List Char → Bool))
  transfer : List (String × List (List Char → Bool))
  income : List (String × List (List Char → Bool))

/-- `FlowTypeClassifier._is_excluded`: some pattern of some excluded category
matches the upper-cased description. -/
def is_excluded (P : PatternTables) (t : Transaction) : Bool :=
  P.excluded.any fun cp => cp.2.any fun p => p (upperStr t.description)

/-- `FlowTypeClassifier._get_excluded_category`: the first excluded category
with a matching pattern, else `"Excluded_Other"`. -/
def get_excluded_category (P : PatternTables) (t : Transaction) : String :=
  match P.excluded.find? (fun cp => cp.2.any fun p => p (upperStr t.description)) with
  | some cp => cp.1
  | none => "Excluded_Other"

/-- `FlowTypeClassifier._check_income_patterns`: first income category with a
matching pattern gives `INCOME` at high confidence. -/
def check_income_patterns (P : PatternTables) (t : Transaction) :
    Option CategorizationResult :=
  match P.income.find? (fun cp => cp.2.any fun p => p (upperStr t.description)) with
  | some cp =>
      some { flow_type := .INCOME, category := cp.1,
             confidence := CONFIDENCE_HIGH, method := "income_pattern" }
  | none => none

/-- The subject's side of the pair-marking mutation of `_find_transfer_pair`
(`transaction.has_pair = True`,
`transaction.pair_id = f"{other.date}_{other.amount}"`). -/
def pairSelf (t o : Transaction) : Transaction :=
  { t with has_pair := true, pair_id := some (o.date, o.amount) }

/-- The candidate's side of the same mutation (`other.has_pair = True`,
`other.pair_id = f"{transaction.date}_{transaction.amount}"`). -/
def pairOther (t o : Transaction) : Transaction :=
  { o with has_pair := true, pair_id := some (t.date, t.amount) }

/-- The loop body of `_find_transfer_pair`: scan the batch positions `js` in
order for the first unpaired, date-proximate, opposite-amount candidate; on a
match mark both sides paired (the in-place mutation of the source, here a
`List.set` at both positions) and return the candidate's index. -/
def findPairAux (ts : List Transaction) (i : Nat) (t : Transaction) :
    List Nat → List Transaction × Option Nat
  | [] => (ts, none)
  | j :: js =>
    if j = i then findPairAux ts i t js
    else
      let o := ts.getD j default
      if o.has_pair then findPairAux ts i t js
      else if TRANSFER_MATCH_DAYS < |o.date.toDays - t.date.toDays| then
        findPairAux ts i t js
      else if |o.amount - (-t.amount)| ≤ TRANSFER_AMOUNT_TOLERANCE then
        ((ts.set i (pairSelf t o)).set j (pairOther t o), some j)
      else findPairAux ts i t js

/-- `FlowTypeClassifier._find_transfer_pair` for the transaction at position
`i` of the batch (the batch doubles as `self.all_transactions`): returns the
updated batch and the matched index, if any. -/
def find_transfer_pair (ts : List Transaction) (i : Nat) :
    List Transaction × Option Nat :=
  if ts.isEmpty then (ts, none)
  else findPairAux ts i (ts.getD i default) (List.range ts.length)

/-- `FlowTypeClassifier._check_internal_transfer` at position `i`: transfer
pattern match (pair raises confidence), else pair match alone with a
directional default category.  Also returns the updated batch and the pairing
event `(i, j)` when a pair was made. -/
def check_internal_transfer (P : PatternTables) (ts : List Transaction) (i : Nat) :
    Option CategorizationResult × List Transaction × Option (Nat × Nat) :=
  let t := ts.getD i default
  match P.transfer.find? (fun cp => cp.2.any fun p => p (upperStr t.description)) with
  | some cp =>
      match find_transfer_pair ts i with
      | (ts', some j) =>
          (some { flow_type := .INTERNAL_TRANSFER, category := cp.1,
                  confidence := CONFIDENCE_HIGH,
                  method := "transfer_pattern_with_pair" },
           ts', some (i, j))
      | (ts', none) =>
          (some { flow_type := .INTERNAL_TRANSFER, category := cp.1,
                  confidence := CONFIDENCE_MEDIUM, method := "transfer_pattern" },
           ts', none)
  | none =>
      match find_transfer_pair ts i with
      | (ts', some j) =>
          let category := if t.amount < 0 then "To_Unknown_Account"
                          else "From_Unknown_Account"
          (some { flow_type := .INTERNAL_TRANSFER, category := category,
                  confidence := CONFIDENCE_MEDIUM, method := "transfer_pair_only" },
           ts', some (i, j))
      | (ts', none) => (none, ts', none)

/-- `FlowTypeClassifier.classify` for the transaction at position `i`:
EXCLUDED patterns first, then income patterns (positive amounts only), then
internal transfer, then the amount-sign fallback. -/
def classify (P : PatternTables) (ts : List Transaction) (i : Nat) :
    CategorizationResult × List Transaction × Option (Nat × Nat) :=
  let t := ts.getD i default
  if is_excluded P t then
    ({ flow_type := .EXCLUDED, category := get_excluded_category P t,
       confidence := CONFIDENCE_HIGH, method := "excluded_pattern" }, ts, none)
  else
    match (if 0 < t.amount then check_income_patterns P t else none) with
    | some r => (r, ts, none)
    | none =>
      match check_internal_transfer P ts i with
      | (some r, ts', e) => (r, ts', e)
      | (none, ts', _) =>
        if 0 < t.amount then
          ({ flow_type := .INCOME, category := "Uncategorized_Income",
             confidence := CONFIDENCE_HIGH, method := "amount_positive" }, ts', none)
        else
          ({ flow_type := .EXPENSE, category := "Uncategorized_Expense",
             confidence := CONFIDENCE_HIGH, method := "amount_negative" }, ts', none)

/-- The per-transaction assignment of `classify_all`
(`transaction.flow_type = result.flow_type` etc.): the transaction with the
result's flow type, category and confidence written on. -/
def withClassification (t : Transaction) (r : CategorizationResult) :
    Transaction :=
  { t with flow_type := some r.flow_type, category := some r.category,
           confidence := r.confidence }

/-- The loop of `classify_all`: classify each position in order, writing
`flow_type`, `category` and `confidence` onto the transaction (the source
mutates the same object the pair search may already have marked).  The
pairing events are accumulated chronologically. -/
def classifyAllGo (P : PatternTables) :
    List Nat → List Transaction → List (Nat × Nat) →
    List Transaction × List (Nat × Nat)
  | [], ts, log => (ts, log)
  | i :: js, ts, log =>
    match classify P ts i with
    | (r, ts', e) =>
      let ts'' := ts'.set i (withClassification (ts'.getD i default) r)
      classifyAllGo P js ts'' (log ++ e.toList)

/-- `FlowTypeClassifier.classify_all`: run `classify` over every transaction
of the batch (which is also the pair-matching context), returning the fully
annotated batch and the list of pairing events `(initiator, candidate)`. -/
def classify_all (P : PatternTables) (ts : List Transaction) :
    List Transaction × List (Nat × Nat) :=
  classifyAllGo P (List.range ts.length) ts []

/-- `FlowTypeClassifier.reclassify_transaction`: force a flow type, mark the
transaction user-verified, set confidence to 1.0. -/
def reclassify_transaction (t : Transaction) (new_flow_type : FlowType) :
    Transaction :=
  { t with flow_type := some new_flow_type, user_verified := true,
           confidence := 1 }

/-- `MonthlyMetrics` of `src/src/core/models.py` (money in cents, ratios
exact rationals, the category breakdowns as insertion-ordered key/value
lists — Python dicts). -/
structure MonthlyMetrics where
  month : YearMonth
  gross_income : Int
  true_expenses : Int
  net_cash_flow : Int
  internal_transfers_out : Int
  internal_transfers_in : Int
  excluded_payments : Int
  savings_rate : ℚ
  expense_ratio : ℚ
  income_by_category : List (String × Int)
  expense_by_category : List (String × Int)
  transaction_count : Nat
  largest_expense : Int
  largest_income : Int
  daily_burn_rate : ℚ
  starting_balance : Int
  ending_balance : Int
  calculated_change : Int
  actual_change : Int
  reconciliation_diff : Int

instance : Inhabited MonthlyMetrics :=
  ⟨{ month := ⟨0, 0⟩, gross_income := 0, true_expenses := 0, net_cash_flow := 0,
     internal_transfers_out := 0, internal_transfers_in := 0,
     excluded_payments := 0, savings_rate := 0, expense_ratio := 0,
     income_by_category := [], expense_by_category := [],
     transaction_count := 0, largest_expense := 0, largest_income := 0,
     daily_burn_rate := 0, starting_balance := 0, ending_balance := 0,
     calculated_change := 0, actual_change := 0, reconciliation_diff := 0 }⟩

/-- Sum of `f` over a transaction list. -/
def sumBy (f : Transaction → Int) (ts : List Transaction) : Int :=
  (ts.map f).sum

/-- The `flow_type == FlowType.X.value` data-frame masks (a `None` flow type
matches nothing). -/
def hasFlow (ft : FlowType) (t : Transaction) : Bool :=
  decide (t.flow_type = some ft)

/-- Rows of the data frame belonging to one month key, in original order
(`self.df[self.df['year_month'] == year_month]`). -/
def monthRows (ts : List Transaction) (ym : YearMonth) : List Transaction :=
  ts.filter fun t => decide (t.year_month = ym)

/-- `CashFlowCalculator._get_days_in_month` on a well-formed `"YYYY-MM"` key
(the string-parsing fallback of the source cannot fire on keys produced by
`strftime`). -/
def get_days_in_month (ym : YearMonth) : Int :=
  if ym.month = 2 then
    if (ym.year % 4 = 0 ∧ ym.year % 100 ≠ 0) ∨ ym.year % 400 = 0 then 29 else 28
  else if ym.month = 4 ∨ ym.month = 6 ∨ ym.month = 9 ∨ ym.month = 11 then 30
  else 31

/-- The distinct categories of a row set in order of first appearance
(`df['category'].unique()`), skipping rows without a category (`pd.notna`). -/
def uniqueCategories (rows : List Transaction) : List String :=
  rows.foldl
    (fun acc t =>
      match t.category with
      | none => acc
      | some c => if acc.contains c then acc else acc ++ [c])
    []

/-- `CashFlowCalculator._get_category_breakdown`: per distinct category, the
absolute value of the summed amounts of its rows. -/
def get_category_breakdown (rows : List Transaction) : List (String × Int) :=
  (uniqueCategories rows).map fun c =>
    (c, |sumBy (·.amount) (rows.filter fun t => decide (t.category = some c))|)

/-- First row with the minimal date (`df.loc[df['date'].idxmin()]`). -/
def minByDate (rows : List Transaction) : Transaction :=
  match rows with
  | [] => default
  | r :: rest =>
    rest.foldl (fun a t => if t.date.toDays < a.date.toDays then t else a) r

/-- First row with the maximal date (`df.loc[df['date'].idxmax()]`). -/
def maxByDate (rows : List Transaction) : Transaction :=
  match rows with
  | [] => default
  | r :: rest =>
    rest.foldl (fun a t => if a.date.toDays < t.date.toDays then t else a) r

/-- `CashFlowCalculator._get_starting_balance_from_csv`: the earliest row's
balance minus its amount. -/
def get_starting_balance_from_csv (rows : List Transaction) : Int :=
  match rows with
  | [] => 0
  | _ => (minByDate rows).balance - (minByDate rows).amount

/-- `CashFlowCalculator._get_ending_balance_from_csv`: the latest row's
balance. -/
def get_ending_balance_from_csv (rows : List Transaction) : Int :=
  match rows with
  | [] => 0
  | _ => (maxByDate rows).balance

/-- `CashFlowCalculator._calculate_month_metrics` over one month's rows.

The balance-availability test `month_df['balance'].notna().any() and
(month_df['balance'] != 0).any()` is `rows.any (balance ≠ 0)` here: balances
are modelled as always present (no NaN), under which the first conjunct is
just non-emptiness, which the second implies.  On the unavailable branch the
source assigns `reconciliation_diff = 0` but the `MonthlyMetrics(...)`
constructor call then reads the never-assigned locals `starting_balance`,
`ending_balance` and `actual_change`, so Python raises `UnboundLocalError`:
that path is `none`. -/
def calculate_month_metrics (rows : List Transaction) (ym : YearMonth) :
    Option MonthlyMetrics :=
  let incomeRows := rows.filter (hasFlow .INCOME)
  let expenseRows := rows.filter (hasFlow .EXPENSE)
  let transferOutRows :=
    rows.filter fun t => hasFlow .INTERNAL_TRANSFER t && decide (t.amount < 0)
  let transferInRows :=
    rows.filter fun t => hasFlow .INTERNAL_TRANSFER t && decide (0 < t.amount)
  let excludedRows := rows.filter (hasFlow .EXCLUDED)
  let gross_income := sumBy (·.amount) incomeRows
  let true_expenses := |sumBy (·.amount) expenseRows|
  let internal_transfers_out := |sumBy (·.amount) transferOutRows|
  let internal_transfers_in := sumBy (·.amount) transferInRows
  let excluded_payments := |sumBy (·.amount) excludedRows|
  let net_cash_flow := gross_income - true_expenses
  let savings_rate : ℚ :=
    if 0 < gross_income then
      (internal_transfers_out : ℚ) / (gross_income : ℚ) * 100
    else 0
  let expense_ratio : ℚ :=
    if 0 < gross_income then (true_expenses : ℚ) / (gross_income : ℚ) * 100
    else 0
  let days_in_month := get_days_in_month ym
  let daily_burn_rate : ℚ :=
    if 0 < days_in_month then (true_expenses : ℚ) / (days_in_month : ℚ) else 0
  let calculated_change := sumBy (·.amount) rows
  let csv_balance_available := rows.any fun t => decide (t.balance ≠ 0)
  if csv_balance_available then
    let starting_balance := get_starting_balance_from_csv rows
    let ending_balance := get_ending_balance_from_csv rows
    let actual_change := ending_balance - starting_balance
    some
      { month := ym
        gross_income := gross_income
        true_expenses := true_expenses
        net_cash_flow := net_cash_flow
        internal_transfers_out := internal_transfers_out
        internal_transfers_in := internal_transfers_in
        excluded_payments := excluded_payments
        savings_rate := savings_rate
        expense_ratio := expense_ratio
        income_by_category := get_category_breakdown incomeRows
        expense_by_category := get_category_breakdown expenseRows
        transaction_count := rows.length
        largest_expense :=
          if expenseRows.isEmpty then 0
          else |(expenseRows.map (·.amount)).foldl min (expenseRows.getD 0 default).amount|
        largest_income :=
          if incomeRows.isEmpty then 0
          else (incomeRows.map (·.amount)).foldl max (incomeRows.getD 0 default).amount
        daily_burn_rate := daily_burn_rate
        starting_balance := starting_balance
        ending_balance := ending_balance
        calculated_change := calculated_change
        actual_change := actual_change
        reconciliation_diff := |calculated_change - actual_change| }
  else none

/-- The distinct month keys of the batch in order of first appearance
(`self.df['year_month'].unique()`). -/
def uniqueMonths (ts : List Transaction) : List YearMonth :=
  ts.foldl
    (fun acc t =>
      if acc.contains t.year_month then acc else acc ++ [t.year_month])
    []

/-- Insert into a `ymLe`-sorted list. -/
def orderedInsertYM (m : YearMonth) : List YearMonth → List YearMonth
  | [] => [m]
  | x :: xs => if ymLe m x then m :: x :: xs else x :: orderedInsertYM m xs

/-- Sort month keys ascending (`sorted(...)` over the `"YYYY-MM"` strings). -/
def sortYM : List YearMonth → List YearMonth
  | [] => []
  | x :: xs => orderedInsertYM x (sortYM xs)

/-- Run a fallible computation over each element, failing if any element
fails (a raised exception aborts the source's whole loop). -/
def optionMapList (f : α → Option β) : List α → Option (List β)
  | [] => some []
  | a :: as =>
    match f a with
    | none => none
    | some b => (optionMapList f as).map (b :: ·)

/-- `CashFlowCalculator.calculate_monthly_metrics`: one `MonthlyMetrics` per
distinct month, ascending; `none` when any month raises. -/
def calculate_monthly_metrics (ts : List Transaction) :
    Option (List MonthlyMetrics) :=
  optionMapList (fun ym => calculate_month_metrics (monthRows ts ym) ym)
    (sortYM (uniqueMonths ts))

/-- Digits of a natural number (with fuel; `fuel ≥ n` suffices). -/
def natDigitsAux : Nat → Nat → List Char
  | 0, _ => []
  | _ + 1, 0 => []
  | fuel + 1, n => natDigitsAux fuel (n / 10) ++ [Char.ofNat (48 + n % 10)]

/-- Decimal string of a natural number. -/
def natToString (n : Nat) : String :=
  if n = 0 then "0" else ⟨natDigitsAux (n + 1) n⟩

/-- Zero-padded two-digit field of `strftime`. -/
def pad2 (n : Nat) : String :=
  if n < 10 then "0" ++ natToString n else natToString n

/-- `date.strftime("%Y-%m-%d")`. -/
def fmtDate (d : Date) : String :=
  (if d.year < 0 then "-" else "") ++ natToString d.year.natAbs ++ "-" ++
    pad2 d.month ++ "-" ++ pad2 d.day

/-- `CashFlowCalculator._calculate_months_span`: inclusive month count,
at least 1. -/
def calculate_months_span (start_date end_date : Date) : Int :=
  max 1 ((end_date.year - start_date.year) * 12 +
    ((end_date.month : Int) - (start_date.month : Int)) + 1)

/-- The mapping returned by `CashFlowCalculator.get_summary_metrics`. -/
structure SummaryMetrics where
  period : String
  total_income : Int
  total_expenses : Int
  total_net_cash_flow : Int
  total_transfers_out : Int
  total_excluded : Int
  avg_monthly_income : ℚ
  avg_monthly_expenses : ℚ
  avg_monthly_net_cash_flow : ℚ
  avg_monthly_savings : ℚ
  overall_savings_rate : ℚ
  overall_expense_ratio : ℚ
  transaction_count : Nat
  months_span : Int

/-- `CashFlowCalculator.get_summary_metrics`.  The `if/elif` accumulation
loop is written as four disjoint filtered sums (each transaction enters at
most one accumulator, selected by its flow type and, for transfers, the
amount sign). -/
def get_summary_metrics (ts : List Transaction) : SummaryMetrics :=
  let total_income := sumBy (·.amount) (ts.filter (hasFlow .INCOME))
  let total_expenses := sumBy (|·.amount|) (ts.filter (hasFlow .EXPENSE))
  let total_transfers_out :=
    sumBy (|·.amount|)
      (ts.filter fun t => hasFlow .INTERNAL_TRANSFER t && decide (t.amount < 0))
  let total_excluded := sumBy (|·.amount|) (ts.filter (hasFlow .EXCLUDED))
  let total_net_cash_flow := total_income - total_expenses
  let months_span : Int :=
    if ts.isEmpty then 1
    else calculate_months_span (minByDate ts).date (maxByDate ts).date
  { period :=
      if ts.isEmpty then "N/A"
      else fmtDate (minByDate ts).date ++ " to " ++ fmtDate (maxByDate ts).date
    total_income := total_income
    total_expenses := total_expenses
    total_net_cash_flow := total_net_cash_flow
    total_transfers_out := total_transfers_out
    total_excluded := total_excluded
    avg_monthly_income := (total_income : ℚ) / (months_span : ℚ)
    avg_monthly_expenses := (total_expenses : ℚ) / (months_span : ℚ)
    avg_monthly_net_cash_flow := (total_net_cash_flow : ℚ) / (months_span : ℚ)
    avg_monthly_savings := (total_transfers_out : ℚ) / (months_span : ℚ)
    overall_savings_rate :=
      if 0 < total_income then
        (total_transfers_out : ℚ) / (total_income : ℚ) * 100
      else 0
    overall_expense_ratio :=
      if 0 < total_income then (total_expenses : ℚ) / (total_income : ℚ) * 100
      else 0
    transaction_count := ts.length
    months_span := months_span }

/-- `TransactionCategorizer.get_low_confidence_transactions`: the rows whose
confidence is strictly below the threshold (`t.confidence < threshold`). -/
def get_low_confidence_transactions (ts : List Transaction) (threshold : ℚ) :
    List Transaction :=
  ts.filter fun t => decide (t.confidence < threshold)

/-- Lookup in a month → interest mapping (`dict.get(month, Decimal('0'))`). -/
def interestFor (interest : List (YearMonth × Int)) (ym : YearMonth) : Int :=
  match interest with
  | [] => 0
  | (k, v) :: rest => if k = ym then v else interestFor rest ym

/-- Assignment `d[k] = v` on an insertion-ordered key/value list: update the
existing entry in place, else append. -/
def setKey : List (String × Int) → String → Int → List (String × Int)
  | [], k, v => [(k, v)]
  | (k', v') :: rest, k, v =>
    if k' = k then (k, v) :: rest else (k', v') :: setKey rest k v

/-- Lookup `d.get(k, 0)` on an insertion-ordered key/value list. -/
def getKeyD : List (String × Int) → String → Int
  | [], _ => 0
  | (k', v') :: rest, k => if k' = k then v' else getKeyD rest k

/-- `EnhancedCashFlowCalculator._add_mortgage_to_expenses`: fold the month's
mortgage interest into the expense breakdown under `"Housing_Interest"`
(no-op when the interest is not positive). -/
def add_mortgage_to_expenses (cats : List (String × Int)) (mi : Int) :
    List (String × Int) :=
  if mi ≤ 0 then cats
  else setKey cats "Housing_Interest" (getKeyD cats "Housing_Interest" + mi)

/-- The per-month body of
`EnhancedCashFlowCalculator.calculate_enhanced_monthly_metrics`: a new
`MonthlyMetrics` built from the base month's metrics and that month's
mortgage interest. -/
def enhance_month (m : MonthlyMetrics) (mortgage_interest : Int) :
    MonthlyMetrics :=
  let enhanced_true_expenses := m.true_expenses + mortgage_interest
  let enhanced_net_cash_flow := m.gross_income - enhanced_true_expenses
  { month := m.month
    gross_income := m.gross_income
    true_expenses := enhanced_true_expenses
    net_cash_flow := enhanced_net_cash_flow
    internal_transfers_out := m.internal_transfers_out
    internal_transfers_in := m.internal_transfers_in
    excluded_payments := m.excluded_payments
    savings_rate :=
      if 0 < m.gross_income then
        (enhanced_net_cash_flow : ℚ) / (m.gross_income : ℚ) * 100
      else 0
    expense_ratio :=
      if 0 < m.gross_income then
        (enhanced_true_expenses : ℚ) / (m.gross_income : ℚ) * 100
      else 0
    income_by_category := m.income_by_category
    expense_by_category :=
      add_mortgage_to_expenses m.expense_by_category mortgage_interest
    transaction_count := m.transaction_count
    largest_expense :=
      if 0 < mortgage_interest then max m.largest_expense mortgage_interest
      else m.largest_expense
    largest_income := m.largest_income
    daily_burn_rate := (enhanced_true_expenses : ℚ) / 30
    starting_balance := m.starting_balance
    ending_balance := m.ending_balance
    calculated_change := m.calculated_change
    actual_change := m.actual_change
    reconciliation_diff := m.reconciliation_diff }

/-- `EnhancedCashFlowCalculator.calculate_enhanced_monthly_metrics`: the base
monthly metrics, each enhanced with that month's mortgage interest
(`self.monthly_mortgage_interest.get(metrics.month, Decimal('0'))`). -/
def calculate_enhanced_monthly_metrics (ts : List Transaction)
    (interest : List (YearMonth × Int)) : Option (List MonthlyMetrics) :=
  (calculate_monthly_metrics ts).map fun base =>
    base.map fun m => enhance_month m (interestFor interest m.month)

/-- The spec's reading of a month's true expenses: the sum of the absolute
amounts of the month's EXPENSE transactions (written from the claim's words,
to compare against the source's `abs(...sum())`). -/
def spec_sum_abs_expenses (rows : List Transaction) : Int :=
  sumBy (|·.amount|) (rows.filter (hasFlow .EXPENSE))

/-- The net cash flow the source computes for one month's rows: summed income
amounts minus the absolute value of the summed expense amounts. -/
def month_net (ts : List Transaction) (ym : YearMonth) : Int :=
  sumBy (·.amount) ((monthRows ts ym).filter (hasFlow .INCOME)) -
    |sumBy (·.amount) ((monthRows ts ym).filter (hasFlow .EXPENSE))|

/-- The concrete pattern tables used by witnesses: the literal
(wildcard-free) regexes of `EXCLUDED_CATEGORIES`,
`INTERNAL_TRANSFER_CATEGORIES` and `INCOME_CATEGORIES` in `constants.py`,
for which `re.search` is substring containment (the `.*`-bearing patterns of
the source are omitted; every general theorem quantifies over arbitrary
tables). -/
def modelPatternTables : PatternTables where
  excluded :=
    [("Credit_Card_Payment",
      [litPattern "CHASE CREDIT CRD", litPattern "CREDIT CARD PAYMENT"]),
     ("Loan_Payment",
      [litPattern "LOAN PAYMENT", litPattern "NAVIENT", litPattern "NELNET"]),
     ("Mortgage_Payment", [litPattern "MORTGAGE PAYMENT"])]
  transfer :=
    [("To_Savings",
      [litPattern "ONLINE TRANSFER TO SAV", litPattern "SAVINGS TRANSFER"]),
     ("To_Investment",
      [litPattern "SCHWAB", litPattern "FIDELITY", litPattern "VANGUARD"]),
     ("Treasury_Direct", [litPattern "TREASURYDIRECT"])]
  income :=
    [("Salary", [litPattern "GUSTO", litPattern "PAYROLL", litPattern "SALARY"]),
     ("Investment_Income", [litPattern "DIVIDEND", litPattern "COINBASE"]),
     ("Gift", [litPattern "GIFT"])]

/-- A `some` option equals `some` of its `getD`. -/
theorem option_eq_some_getD {α : Type} {o : Option α} (d : α)
    (h : o.isSome = true) : o = some (o.getD d) := by
  cases o with
  | none => simp at h
  | some a => rfl

/-- The head `getD` of a non-empty list is a member. -/
theorem getD_zero_mem {α : Type} {l : List α} (d : α) (h : 0 < l.length) :
    l.getD 0 d ∈ l := by
  cases l with
  | nil => simp at h
  | cons a as => simp [List.getD]

/-- Elements produced by `optionMapList` come from applying the function to
some input element. -/
theorem optionMapList_mem {α β : Type} {f : α → Option β} :
    ∀ {as : List α} {bs : List β}, optionMapList f as = some bs →
      ∀ b ∈ bs, ∃ a ∈ as, f a = some b := by
  intro as
  induction as with
  | nil =>
    intro bs h b hb
    simp only [optionMapList] at h
    cases h
    simp at hb
  | cons a as ih =>
    intro bs h b hb
    simp only [optionMapList] at h
    cases hfa : f a with
    | none => rw [hfa] at h; cases h
    | some b0 =>
      rw [hfa] at h
      cases hrest : optionMapList f as with
      | none => rw [hrest] at h; cases h
      | some bs0 =>
        rw [hrest] at h
        simp only [Option.map_some'] at h
        cases h
        rcases List.mem_cons.mp hb with hb0 | hbs
        · exact ⟨a, List.mem_cons_self a as, by rw [hfa, hb0]⟩
        · rcases ih hrest b hbs with ⟨a', ha', hfa'⟩
          exact ⟨a', List.mem_cons_of_mem a ha', hfa'⟩

/-- Field equations of a month record actually produced by
`calculate_month_metrics`: its ratios and burn rate are the zero-guarded
formulas over its own integer fields, its month is the grouping key, and its
core totals are the filtered sums of the rows. -/
theorem month_metrics_fields {rows : List Transaction} {ym : YearMonth}
    {mm : MonthlyMetrics} (h : calculate_month_metrics rows ym = some mm) :
    mm.month = ym ∧
    mm.gross_income = sumBy (·.amount) (rows.filter (hasFlow .INCOME)) ∧
    mm.true_expenses = |sumBy (·.amount) (rows.filter (hasFlow .EXPENSE))| ∧
    mm.net_cash_flow = mm.gross_income - mm.true_expenses ∧
    mm.internal_transfers_out =
      |sumBy (·.amount)
        (rows.filter fun t =>
          hasFlow .INTERNAL_TRANSFER t && decide (t.amount < 0))| ∧
    mm.savings_rate =
      (if 0 < mm.gross_income then
        (mm.internal_transfers_out : ℚ) / (mm.gross_income : ℚ) * 100
       else 0) ∧
    mm.expense_ratio =
      (if 0 < mm.gross_income then
        (mm.true_expenses : ℚ) / (mm.gross_income : ℚ) * 100
       else 0) ∧
    mm.daily_burn_rate =
      (if 0 < get_days_in_month ym then
        (mm.true_expenses : ℚ) / (get_days_in_month ym : ℚ)
       else 0) := by
  simp only [calculate_month_metrics] at h
  split at h
  · injection h with h'
    subst h'
    exact ⟨rfl, rfl, rfl, rfl, rfl, rfl, rfl, rfl⟩
  · cases h

/-- Each month record of `calculate_monthly_metrics` is the
`calculate_month_metrics` value of its own month's rows. -/
theorem monthly_metrics_mem {ts : List Transaction} {l : List MonthlyMetrics}
    (h : calculate_monthly_metrics ts = some l) {mm : MonthlyMetrics}
    (hm : mm ∈ l) :
    calculate_month_metrics (monthRows ts mm.month) mm.month = some mm := by
  rcases optionMapList_mem h mm hm with ⟨ym, _, hym⟩
  have hmonth := (month_metrics_fields hym).1
  rw [hmonth]
  exact hym

/-- A date and month key shared by the concrete instances below. -/
def dJan : Date := ⟨2024, 1, 10⟩

/-- The `"2024-01"` month key. -/
def ymJan : YearMonth := ⟨2024, 1⟩

/-- C10.  On an empty transaction list `get_summary_metrics` returns the
degenerate summary: period `"N/A"`, a months span of 1, a transaction count
of 0, and every total, monthly average and ratio equal to 0 (no division by
zero, no error). -/
theorem empty_summary_metrics :
    (get_summary_metrics []).period = "N/A" ∧
    (get_summary_metrics []).months_span = 1 ∧
    (get_summary_metrics []).transaction_count = 0 ∧
    (get_summary_metrics []).total_income = 0 ∧
    (get_summary_metrics []).total_expenses = 0 ∧
    (get_summary_metrics []).total_net_cash_flow = 0 ∧
    (get_summary_metrics []).total_transfers_out = 0 ∧
    (get_summary_metrics []).total_excluded = 0 ∧
    (get_summary_metrics []).avg_monthly_income = 0 ∧
    (get_summary_metrics []).avg_monthly_expenses = 0 ∧
    (get_summary_metrics []).avg_monthly_net_cash_flow = 0 ∧
    (get_summary_metrics []).avg_monthly_savings = 0 ∧
    (get_summary_metrics []).overall_savings_rate = 0 ∧
    (get_summary_metrics []).overall_expense_ratio = 0 := by
  refine ⟨rfl, rfl, rfl, rfl, rfl, rfl, rfl, rfl, ?_, ?_, ?_, ?_, rfl, rfl⟩ <;>
    simp [get_summary_metrics, sumBy]

/-- C9 (amended).  `get_low_confidence_transactions` returns exactly the
transactions whose confidence is STRICTLY below the threshold (the source
filters with `t.confidence < threshold`, so a transaction exactly at the
threshold is excluded, contrary to the claim's "at or below"). -/
theorem low_confidence_strict_amended (t : Transaction)
    (ts : List Transaction) (threshold : ℚ) :
    t ∈ get_low_confidence_transactions ts threshold ↔
      t ∈ ts ∧ t.confidence < threshold := by
  simp [get_low_confidence_transactions, List.mem_filter]

/-- A transaction whose confidence sits exactly at the default threshold
`CONFIDENCE_MEDIUM`. -/
def txAtThreshold : Transaction :=
  { mkTransaction dJan "COSTCO" (-4200) 100 with
      flow_type := some .EXPENSE, category := some "Groceries",
      confidence := CONFIDENCE_MEDIUM }

/-- C9 counterexample.  A transaction with confidence exactly equal to the
threshold is NOT returned: the claim's "at or below" fails at equality. -/
theorem low_confidence_at_threshold_cex :
    txAtThreshold.confidence = CONFIDENCE_MEDIUM ∧
    get_low_confidence_transactions [txAtThreshold] CONFIDENCE_MEDIUM = [] := by
  refine ⟨rfl, ?_⟩
  simp [get_low_confidence_transactions, txAtThreshold]

/-- C6.  Whenever the description matches an EXCLUDED pattern, `classify`
returns `EXCLUDED` with confidence `CONFIDENCE_HIGH` (0.9) and the first
matching excluded category, touches no pairing state and emits no pairing
event — whatever the amount's sign, whatever other patterns match, and
whatever opposite-amount counterparts exist in the batch (the EXCLUDED check
runs before every other step). -/
theorem excluded_priority (P : PatternTables) (ts : List Transaction) (i : Nat)
    (h : is_excluded P (ts.getD i default) = true) :
    classify P ts i =
      ({ flow_type := .EXCLUDED,
         category := get_excluded_category P (ts.getD i default),
         confidence := CONFIDENCE_HIGH, method := "excluded_pattern" },
       ts, none) := by
  simp only [classify, h, if_true]

/-- A transaction whose description matches both an EXCLUDED pattern
(`CREDIT CARD PAYMENT`) and a TRANSFER pattern (`SAVINGS TRANSFER`). -/
def txAmbiguous : Transaction :=
  mkTransaction dJan "CREDIT CARD PAYMENT VIA SAVINGS TRANSFER" (-100000) 100

/-- An exact opposite-amount same-day counterpart of `txAmbiguous` (a
would-be transfer pair). -/
def txCounterpart : Transaction :=
  mkTransaction dJan "DDD" 100000 100

/-- C6 witness: at a description matching both an excluded and a transfer
pattern, with an opposite-amount counterpart in the batch, `classify` still
returns EXCLUDED. -/
theorem excluded_priority_witness :
    is_excluded modelPatternTables
        (([txAmbiguous, txCounterpart].getD 0 default)) = true ∧
    classify modelPatternTables [txAmbiguous, txCounterpart] 0 =
      ({ flow_type := .EXCLUDED,
         category := get_excluded_category modelPatternTables
           ([txAmbiguous, txCounterpart].getD 0 default),
         confidence := CONFIDENCE_HIGH, method := "excluded_pattern" },
       [txAmbiguous, txCounterpart], none) :=
  ⟨by decide, excluded_priority modelPatternTables [txAmbiguous, txCounterpart] 0 (by decide)⟩

/-- A month all of whose rows carry a zero (unusable) balance field. -/
def txNoBalance : Transaction :=
  { mkTransaction dJan "RENT" (-10000) 0 with
      flow_type := some .EXPENSE, category := some "Housing" }

/-- C3 (code bug).  For a month with no usable balance data the grouping
produces the month, yet `_calculate_month_metrics` raises instead of
returning a `MonthlyMetrics` with zero `reconciliation_diff`: on the
`csv_balance_available == False` branch the source assigns
`reconciliation_diff = Decimal('0')` but the `MonthlyMetrics(...)` call then
reads the locals `starting_balance`, `ending_balance` and `actual_change`,
which that branch never assigns, so Python raises `UnboundLocalError` and
`calculate_monthly_metrics` aborts. -/
theorem balanceless_month_raises :
    sortYM (uniqueMonths [txNoBalance]) = [ymJan] ∧
    (calculate_month_metrics (monthRows [txNoBalance] ymJan) ymJan).isSome
      = false ∧
    (calculate_monthly_metrics [txNoBalance]).isSome = false := by
  refine ⟨by decide, by decide, by decide⟩

/-- A positive-amount transaction matching no pattern (so automatic
classification makes it INCOME). -/
def txUser : Transaction := mkTransaction dJan "ACME CORP" 500 100

/-- C5 (code bug).  `reclassify_transaction` marks the transaction
user-verified with confidence 1.0 and a forced flow type, but a subsequent
`classify_all` pass overwrites flow type and confidence regardless:
`classify_all` never consults `user_verified`.  Here a transaction forced to
EXPENSE comes back INCOME with confidence `CONFIDENCE_HIGH` (0.9). -/
theorem user_verified_overwritten :
    (reclassify_transaction txUser .EXPENSE).flow_type = some .EXPENSE ∧
    (reclassify_transaction txUser .EXPENSE).user_verified = true ∧
    (reclassify_transaction txUser .EXPENSE).confidence = 1 ∧
    ((classify_all modelPatternTables
        [reclassify_transaction txUser .EXPENSE]).1.getD 0 default).flow_type
      = some .INCOME ∧
    ((classify_all modelPatternTables
        [reclassify_transaction txUser .EXPENSE]).1.getD 0 default).confidence
      = CONFIDENCE_HIGH ∧
    CONFIDENCE_HIGH ≠ 1 := by
  refine ⟨rfl, rfl, rfl, by decide, rfl, by norm_num [CONFIDENCE_HIGH]⟩

/-- The enhanced monthly list is the base list with `enhance_month` mapped
over it (each month paired with its mortgage interest). -/
theorem enhanced_eq_map {ts : List Transaction} {im : List (YearMonth × Int)}
    {l0 l : List MonthlyMetrics} (h0 : calculate_monthly_metrics ts = some l0)
    (h : calculate_enhanced_monthly_metrics ts im = some l) :
    l = l0.map fun m => enhance_month m (interestFor im m.month) := by
  simp only [calculate_enhanced_monthly_metrics, h0, Option.map_some'] at h
  injection h with h
  exact h.symm

/-- Any member of the enhanced monthly list satisfies the recomputed-field
equations over its own fields: `savings_rate` is the zero-guarded
`net_cash_flow / gross_income × 100` (not the transfers-based base formula),
`expense_ratio` the zero-guarded `true_expenses / gross_income × 100`, and
`daily_burn_rate` is `true_expenses / 30`. -/
theorem enhanced_mem_fields {ts : List Transaction}
    {im : List (YearMonth × Int)} {l : List MonthlyMetrics}
    (h : calculate_enhanced_monthly_metrics ts im = some l)
    {mm : MonthlyMetrics} (hm : mm ∈ l) :
    mm.savings_rate =
      (if 0 < mm.gross_income then
        (mm.net_cash_flow : ℚ) / (mm.gross_income : ℚ) * 100
       else 0) ∧
    mm.expense_ratio =
      (if 0 < mm.gross_income then
        (mm.true_expenses : ℚ) / (mm.gross_income : ℚ) * 100
       else 0) ∧
    mm.daily_burn_rate = (mm.true_expenses : ℚ) / 30 := by
  simp only [calculate_enhanced_monthly_metrics] at h
  cases h0 : calculate_monthly_metrics ts with
  | none => rw [h0] at h; cases h
  | some l0 =>
    rw [h0, Option.map_some'] at h
    injection h with h
    subst h
    rcases List.mem_map.mp hm with ⟨m0, _, hm0⟩
    subst hm0
    exact ⟨rfl, rfl, rfl⟩

/-- C7 (amended).  For every month of the enhanced metrics, `expense_ratio`
is the base calculator's zero-guarded formula over the enhanced figures
(`enhanced_true_expenses / gross_income × 100`), and both ratios are 0 when
`gross_income` is 0 — but `savings_rate` is NOT the base formula
`internal_transfers_out / gross_income × 100`: the enhancement layer
recomputes it as the zero-guarded `enhanced_net_cash_flow / gross_income ×
100`. -/
theorem enhanced_rates_amended (ts : List Transaction)
    (im : List (YearMonth × Int)) (l : List MonthlyMetrics)
    (h : calculate_enhanced_monthly_metrics ts im = some l)
    (mm : MonthlyMetrics) (hm : mm ∈ l) :
    mm.savings_rate =
      (if 0 < mm.gross_income then
        (mm.net_cash_flow : ℚ) / (mm.gross_income : ℚ) * 100
       else 0) ∧
    mm.expense_ratio =
      (if 0 < mm.gross_income then
        (mm.true_expenses : ℚ) / (mm.gross_income : ℚ) * 100
       else 0) ∧
    (mm.gross_income = 0 → mm.savings_rate = 0 ∧ mm.expense_ratio = 0) := by
  rcases enhanced_mem_fields h hm with ⟨hs, he, _⟩
  refine ⟨hs, he, fun h0 => ⟨?_, ?_⟩⟩
  · rw [hs, h0]; simp
  · rw [he, h0]; simp

/-- An INCOME transaction of 100.00 dollars. -/
def txIncome7 : Transaction :=
  { mkTransaction dJan "SAL" 10000 100 with
      flow_type := some .INCOME, category := some "Salary" }

/-- An outgoing INTERNAL_TRANSFER of 50.00 dollars. -/
def txTransfer7 : Transaction :=
  { mkTransaction dJan "TRF" (-5000) 100 with
      flow_type := some .INTERNAL_TRANSFER, category := some "To_Savings" }

/-- The single enhanced month of the `[txIncome7, txTransfer7]` batch under
an empty interest mapping. -/
def enhCex7 : MonthlyMetrics :=
  ((calculate_enhanced_monthly_metrics [txIncome7, txTransfer7] []).getD
    []).getD 0 default

/-- C7 counterexample.  Income 100.00, transfers out 50.00, no expenses, no
interest: the claim predicts an enhanced savings rate of
`transfers_out / income × 100 = 50`, but the code produces
`net / income × 100 = 100`. -/
theorem enhanced_savings_rate_cex :
    enhCex7.gross_income = 10000 ∧
    enhCex7.internal_transfers_out = 5000 ∧
    enhCex7.savings_rate = 100 ∧
    enhCex7.savings_rate ≠
      (enhCex7.internal_transfers_out : ℚ) / (enhCex7.gross_income : ℚ) * 100 := by
  have h : calculate_enhanced_monthly_metrics [txIncome7, txTransfer7] [] =
      some ((calculate_enhanced_monthly_metrics [txIncome7, txTransfer7] []).getD []) :=
    option_eq_some_getD [] (by decide)
  have hm : enhCex7 ∈
      (calculate_enhanced_monthly_metrics [txIncome7, txTransfer7] []).getD [] :=
    getD_zero_mem default (by decide)
  have hg : enhCex7.gross_income = 10000 := by decide
  have ht : enhCex7.internal_transfers_out = 5000 := by decide
  have hn : enhCex7.net_cash_flow = 10000 := by decide
  have hs := (enhanced_mem_fields h hm).1
  rw [hg, hn] at hs
  have hs100 : enhCex7.savings_rate = 100 := by
    rw [hs]; norm_num
  refine ⟨hg, ht, hs100, ?_⟩
  rw [hs100, ht, hg]
  norm_num

/-- An EXPENSE transaction of 31.00 dollars in January (a 31-day month). -/
def txExpense8 : Transaction :=
  { mkTransaction dJan "R" (-3100) 100 with
      flow_type := some .EXPENSE, category := some "Housing" }

/-- The single base month of the `[txExpense8]` batch. -/
def baseCex8 : MonthlyMetrics :=
  ((calculate_monthly_metrics [txExpense8]).getD []).getD 0 default

/-- The single enhanced month of the `[txExpense8]` batch under an empty
interest mapping. -/
def enhCex8 : MonthlyMetrics :=
  ((calculate_enhanced_monthly_metrics [txExpense8] []).getD []).getD 0 default

/-- C8 (amended).  Per month, all the claim's pass-through fields except
`daily_burn_rate` do pass through unchanged from the base metrics —
`internal_transfers_in`/`out`, `excluded_payments`, `income_by_category`,
`largest_income`, `transaction_count` and the five balance-reconciliation
fields — but `daily_burn_rate` does not: the enhancement layer recomputes it
as `enhanced_true_expenses / 30` (the source's "approximate daily burn
rate"), not the base's calendar-correct value. -/
theorem enhanced_passthrough_amended (ts : List Transaction)
    (im : List (YearMonth × Int)) (l0 l : List MonthlyMetrics)
    (h0 : calculate_monthly_metrics ts = some l0)
    (h : calculate_enhanced_monthly_metrics ts im = some l) :
    l.length = l0.length ∧
    ∀ k (hk : k < l0.length) (hk' : k < l.length),
      (l.get ⟨k, hk'⟩).month = (l0.get ⟨k, hk⟩).month ∧
      (l.get ⟨k, hk'⟩).gross_income = (l0.get ⟨k, hk⟩).gross_income ∧
      (l.get ⟨k, hk'⟩).internal_transfers_out
        = (l0.get ⟨k, hk⟩).internal_transfers_out ∧
      (l.get ⟨k, hk'⟩).internal_transfers_in
        = (l0.get ⟨k, hk⟩).internal_transfers_in ∧
      (l.get ⟨k, hk'⟩).excluded_payments = (l0.get ⟨k, hk⟩).excluded_payments ∧
      (l.get ⟨k, hk'⟩).income_by_category
        = (l0.get ⟨k, hk⟩).income_by_category ∧
      (l.get ⟨k, hk'⟩).largest_income = (l0.get ⟨k, hk⟩).largest_income ∧
      (l.get ⟨k, hk'⟩).transaction_count
        = (l0.get ⟨k, hk⟩).transaction_count ∧
      (l.get ⟨k, hk'⟩).starting_balance = (l0.get ⟨k, hk⟩).starting_balance ∧
      (l.get ⟨k, hk'⟩).ending_balance = (l0.get ⟨k, hk⟩).ending_balance ∧
      (l.get ⟨k, hk'⟩).calculated_change
        = (l0.get ⟨k, hk⟩).calculated_change ∧
      (l.get ⟨k, hk'⟩).actual_change = (l0.get ⟨k, hk⟩).actual_change ∧
      (l.get ⟨k, hk'⟩).reconciliation_diff
        = (l0.get ⟨k, hk⟩).reconciliation_diff ∧
      (l.get ⟨k, hk'⟩).daily_burn_rate =
        (((l0.get ⟨k, hk⟩).true_expenses +
          interestFor im (l0.get ⟨k, hk⟩).month : Int) : ℚ) / 30 := by
  have hmap := enhanced_eq_map h0 h
  subst hmap
  refine ⟨List.length_map l0 _, fun k hk hk' => ?_⟩
  have hget : (l0.map fun m => enhance_month m (interestFor im m.month)).get ⟨k, hk'⟩
      = enhance_month (l0.get ⟨k, hk⟩) (interestFor im (l0.get ⟨k, hk⟩).month) := by
    simp
  rw [hget]
  exact ⟨rfl, rfl, rfl, rfl, rfl, rfl, rfl, rfl, rfl, rfl, rfl, rfl, rfl, rfl⟩

/-- C8 witness: the pass-through theorem applied to the one-expense January
batch with no interest data. -/
theorem enhanced_passthrough_amended_witness :
    ((calculate_enhanced_monthly_metrics [txExpense8] []).getD []).length =
      ((calculate_monthly_metrics [txExpense8]).getD []).length :=
  (enhanced_passthrough_amended [txExpense8] [] _ _
    (option_eq_some_getD [] (by decide)) (option_eq_some_getD [] (by decide))).1

/-- C8 counterexample.  For a January (31-day) month with 31.00 dollars of
expenses and no mortgage interest, the base `daily_burn_rate` is
`3100 / 31 = 100` cents/day but the enhanced one is `3100 / 30 = 310/3`:
`daily_burn_rate` is not passed through unchanged. -/
theorem enhanced_burn_rate_cex :
    baseCex8.daily_burn_rate = 100 ∧
    enhCex8.daily_burn_rate = 310 / 3 ∧
    enhCex8.daily_burn_rate ≠ baseCex8.daily_burn_rate := by
  have h0 : calculate_monthly_metrics [txExpense8] =
      some ((calculate_monthly_metrics [txExpense8]).getD []) :=
    option_eq_some_getD [] (by decide)
  have hm0 : baseCex8 ∈ (calculate_monthly_metrics [txExpense8]).getD [] :=
    getD_zero_mem default (by decide)
  have h : calculate_enhanced_monthly_metrics [txExpense8] [] =
      some ((calculate_enhanced_monthly_metrics [txExpense8] []).getD []) :=
    option_eq_some_getD [] (by decide)
  have hm : enhCex8 ∈
      (calculate_enhanced_monthly_metrics [txExpense8] []).getD [] :=
    getD_zero_mem default (by decide)
  have hmonth : baseCex8.month = ymJan := by decide
  have hte : baseCex8.true_expenses = 3100 := by decide
  have hteE : enhCex8.true_expenses = 3100 := by decide
  have hburn := (month_metrics_fields (monthly_metrics_mem h0 hm0)).2.2.2.2.2.2.2
  rw [hmonth, hte] at hburn
  have hdays : get_days_in_month ymJan = 31 := by decide
  rw [hdays] at hburn
  have hb100 : baseCex8.daily_burn_rate = 100 := by
    rw [hburn]; norm_num
  have hburnE := (enhanced_mem_fields h hm).2.2
  rw [hteE] at hburnE
  have hbE : enhCex8.daily_burn_rate = 310 / 3 := by
    rw [hburnE]; norm_num
  refine ⟨hb100, hbE, ?_⟩
  rw [hb100, hbE]
  norm_num

/-- C7 witness: the rates theorem applied to the income-plus-transfer
January batch with no interest data. -/
theorem enhanced_rates_amended_witness :
    enhCex7.expense_ratio =
      (if 0 < enhCex7.gross_income then
        (enhCex7.true_expenses : ℚ) / (enhCex7.gross_income : ℚ) * 100
       else 0) :=
  (enhanced_rates_amended [txIncome7, txTransfer7] [] _
    (option_eq_some_getD [] (by decide)) enhCex7
    (getD_zero_mem default (by decide))).2.1

/-- Inserting a row the filter rejects changes nothing. -/
theorem filter_middle_false {l1 l2 : List Transaction} {x : Transaction}
    {f : Transaction → Bool} (hx : f x = false) :
    (l1 ++ x :: l2).filter f = (l1 ++ l2).filter f := by
  simp [List.filter_append, List.filter_cons, hx]

/-- An INTERNAL_TRANSFER or EXCLUDED transaction passes neither the INCOME
nor the EXPENSE mask. -/
theorem hasFlow_income_expense_false {x : Transaction}
    (hx : x.flow_type = some .INTERNAL_TRANSFER ∨
          x.flow_type = some .EXCLUDED) :
    hasFlow .INCOME x = false ∧ hasFlow .EXPENSE x = false := by
  rcases hx with h | h <;> simp [hasFlow, h]

/-- C1 (amended).  The net-cash-flow formula, as the code computes it.
(1) Every produced `MonthlyMetrics` satisfies
`net_cash_flow = gross_income − true_expenses`, with `gross_income` the sum
of the month's INCOME amounts — but `true_expenses` is the ABSOLUTE VALUE OF
THE SUM of the month's EXPENSE amounts (`abs(...sum())`), which equals the
claim's sum of absolute amounts only when those amounts all share one sign
(EXPENSE rows of positive amount arise, e.g., through
`reclassify_transaction`).
(2) In `get_summary_metrics` the expense term IS the claim's per-transaction
sum of absolute amounts, and `total_net_cash_flow` equals total income minus
it.
(3) Both the per-month net and the summary net are unchanged by inserting or
removing any INTERNAL_TRANSFER or EXCLUDED transaction of any magnitude. -/
theorem cashflow_formula_amended :
    (∀ (ts : List Transaction) (l : List MonthlyMetrics),
      calculate_monthly_metrics ts = some l → ∀ mm ∈ l,
        mm.net_cash_flow = mm.gross_income - mm.true_expenses ∧
        mm.gross_income =
          sumBy (·.amount) ((monthRows ts mm.month).filter (hasFlow .INCOME)) ∧
        mm.true_expenses =
          |sumBy (·.amount)
            ((monthRows ts mm.month).filter (hasFlow .EXPENSE))| ∧
        mm.net_cash_flow = month_net ts mm.month) ∧
    (∀ ts : List Transaction,
      (get_summary_metrics ts).total_net_cash_flow =
        sumBy (·.amount) (ts.filter (hasFlow .INCOME)) -
          spec_sum_abs_expenses ts) ∧
    (∀ (pre post : List Transaction) (x : Transaction),
      (x.flow_type = some .INTERNAL_TRANSFER ∨ x.flow_type = some .EXCLUDED) →
      (∀ ym, month_net (pre ++ x :: post) ym = month_net (pre ++ post) ym) ∧
      (get_summary_metrics (pre ++ x :: post)).total_net_cash_flow =
        (get_summary_metrics (pre ++ post)).total_net_cash_flow) := by
  refine ⟨?_, ?_, ?_⟩
  · intro ts l h mm hm
    rcases month_metrics_fields (monthly_metrics_mem h hm) with
      ⟨_, hg, ht, hn, _⟩
    exact ⟨hn, hg, ht, by rw [hn, hg, ht, month_net]⟩
  · intro ts
    simp only [get_summary_metrics, spec_sum_abs_expenses]
  · intro pre post x hx
    rcases hasFlow_income_expense_false hx with ⟨hi, he⟩
    constructor
    · intro ym
      simp only [month_net, monthRows, List.filter_filter]
      rw [filter_middle_false (by simp [hi]), filter_middle_false (by simp [he])]
    · simp only [get_summary_metrics,
        filter_middle_false hi, filter_middle_false he]

/-- An EXPENSE row of positive amount (as `reclassify_transaction` can
produce). -/
def txPosExpense : Transaction :=
  { mkTransaction dJan "X1" 5000 100 with
      flow_type := some .EXPENSE, category := some "CatA" }

/-- An ordinary negative-amount EXPENSE row in the same month. -/
def txNegExpense : Transaction :=
  { mkTransaction dJan "X2" (-3000) 100 with
      flow_type := some .EXPENSE, category := some "CatB" }

/-- The single month the calculator produces for
`[txPosExpense, txNegExpense]`. -/
def mmCex1 : MonthlyMetrics :=
  ((calculate_monthly_metrics [txPosExpense, txNegExpense]).getD []).getD 0
    default

/-- C1 counterexample.  A month holding EXPENSE amounts +50.00 and −30.00:
the claim's `true_expenses` (sum of absolute amounts) is 80.00, but the code
computes `abs(sum) = 20.00` and `net_cash_flow = −20.00 ≠ 0 − 80.00`, so the
claimed identity fails on this classified set. -/
theorem monthly_true_expenses_cex :
    mmCex1.month = ymJan ∧
    mmCex1.gross_income = 0 ∧
    mmCex1.true_expenses = 2000 ∧
    mmCex1.net_cash_flow = -2000 ∧
    spec_sum_abs_expenses (monthRows [txPosExpense, txNegExpense] ymJan)
      = 8000 ∧
    mmCex1.net_cash_flow ≠
      mmCex1.gross_income -
        spec_sum_abs_expenses (monthRows [txPosExpense, txNegExpense] ymJan) := by
  refine ⟨by decide, by decide, by decide, by decide, by decide, by decide⟩

/-- C1 witness: the amended formula theorem applied to the one-expense
January batch. -/
theorem cashflow_formula_amended_witness :
    baseCex8.net_cash_flow = baseCex8.gross_income - baseCex8.true_expenses :=
  (cashflow_formula_amended.1 [txExpense8] _ (option_eq_some_getD [] (by decide))
    baseCex8 (getD_zero_mem default (by decide))).1

/-- `getD` after `set`: the new value exactly at an in-bounds updated index,
the old value elsewhere. -/
theorem getD_set_cases {α : Type} [Inhabited α] (l : List α) (i k : Nat)
    (a : α) :
    (l.set i a).getD k default =
      if i = k ∧ i < l.length then a else l.getD k default := by
  by_cases hik : i = k
  · subst hik
    by_cases hlt : i < l.length
    · simp [List.getD_eq_getElem?_getD, List.getElem?_set_self hlt, hlt]
    · rw [List.set_eq_of_length_le (Nat.le_of_not_lt hlt)]
      simp [hlt]
  · simp [List.getD_eq_getElem?_getD, List.getElem?_set_ne hik, hik]

/-- What one `_find_transfer_pair` scan can do: either nothing (no match,
state untouched), or it returns the first qualifying candidate `j` — a
position other than `i`, unpaired before the call — and the state with
positions `i` and `j` replaced by pair-marked copies (only `has_pair` and
`pair_id` change; in particular both copies have `has_pair = true` and keep
their flow types). -/
theorem findPairAux_spec (ts : List Transaction) (i : Nat) (t : Transaction) :
    ∀ js : List Nat,
      findPairAux ts i t js = (ts, none) ∨
      ∃ j A B, j ∈ js ∧ j ≠ i ∧ (ts.getD j default).has_pair = false ∧
        A.has_pair = true ∧ B.has_pair = true ∧
        A.flow_type = t.flow_type ∧
        B.flow_type = (ts.getD j default).flow_type ∧
        findPairAux ts i t js = ((ts.set i A).set j B, some j) := by
  intro js
  induction js with
  | nil => left; rfl
  | cons j js ih =>
    simp only [findPairAux]
    by_cases h1 : j = i
    · rw [if_pos h1]
      rcases ih with h | ⟨j', A, B, hmem, hrest⟩
      · left; exact h
      · right; exact ⟨j', A, B, List.mem_cons_of_mem _ hmem, hrest⟩
    · rw [if_neg h1]
      by_cases h2 : (ts.getD j default).has_pair
      · rw [if_pos h2]
        rcases ih with h | ⟨j', A, B, hmem, hrest⟩
        · left; exact h
        · right; exact ⟨j', A, B, List.mem_cons_of_mem _ hmem, hrest⟩
      · rw [if_neg h2]
        by_cases h3 : TRANSFER_MATCH_DAYS <
            |(ts.getD j default).date.toDays - t.date.toDays|
        · rw [if_pos h3]
          rcases ih with h | ⟨j', A, B, hmem, hrest⟩
          · left; exact h
          · right; exact ⟨j', A, B, List.mem_cons_of_mem _ hmem, hrest⟩
        · rw [if_neg h3]
          by_cases h4 : |(ts.getD j default).amount - (-t.amount)| ≤
              TRANSFER_AMOUNT_TOLERANCE
          · rw [if_pos h4]
            right
            exact ⟨j, pairSelf t (ts.getD j default),
              pairOther t (ts.getD j default),
              List.mem_cons_self _ _, h1, Bool.eq_false_iff.mpr h2,
              rfl, rfl, rfl, rfl, rfl⟩
          · rw [if_neg h4]
            rcases ih with h | ⟨j', A, B, hmem, hrest⟩
            · left; exact h
            · right; exact ⟨j', A, B, List.mem_cons_of_mem _ hmem, hrest⟩

/-- `find_transfer_pair` at a batch position: nothing, or a pairing with the
first qualifying candidate `j < ts.length`. -/
theorem find_transfer_pair_spec (ts : List Transaction) (i : Nat) :
    find_transfer_pair ts i = (ts, none) ∨
    ∃ j A B, j < ts.length ∧ j ≠ i ∧
      (ts.getD j default).has_pair = false ∧
      A.has_pair = true ∧ B.has_pair = true ∧
      A.flow_type = (ts.getD i default).flow_type ∧
      B.flow_type = (ts.getD j default).flow_type ∧
      find_transfer_pair ts i = ((ts.set i A).set j B, some j) := by
  rw [find_transfer_pair]
  by_cases hemp : ts.isEmpty
  · rw [if_pos hemp]; left; rfl
  · rw [if_neg hemp]
    rcases findPairAux_spec ts i (ts.getD i default) (List.range ts.length)
      with h | ⟨j, A, B, hmem, hrest⟩
    · left; exact h
    · right; exact ⟨j, A, B, List.mem_range.mp hmem, hrest⟩

/-- `_check_internal_transfer` either leaves the batch untouched and emits no
pairing event, or returns a transfer result together with the pair-marked
batch and the event `(i, j)`. -/
theorem check_internal_transfer_spec (P : PatternTables) (ts : List Transaction)
    (i : Nat) :
    (check_internal_transfer P ts i).2 = (ts, none) ∨
    ∃ j A B r, j < ts.length ∧ j ≠ i ∧
      (ts.getD j default).has_pair = false ∧
      A.has_pair = true ∧ B.has_pair = true ∧
      A.flow_type = (ts.getD i default).flow_type ∧
      B.flow_type = (ts.getD j default).flow_type ∧
      check_internal_transfer P ts i = (some r, (ts.set i A).set j B, some (i, j)) := by
  simp only [check_internal_transfer]
  rcases find_transfer_pair_spec ts i with heq |
    ⟨j, A, B, hj, hne, hp, hA, hB, hAf, hBf, heq⟩ <;>
  · rw [heq]
    cases hfind : P.transfer.find?
        (fun cp => cp.2.any fun p => p (upperStr (ts.getD i default).description)) with
    | some cp =>
      first
      | (left; rfl)
      | (right; exact ⟨j, A, B, _, hj, hne, hp, hA, hB, hAf, hBf, rfl⟩)
    | none =>
      first
      | (left; rfl)
      | (right; exact ⟨j, A, B, _, hj, hne, hp, hA, hB, hAf, hBf, rfl⟩)

/-- `classify` either leaves the batch untouched with no pairing event
(EXCLUDED, income-pattern, pattern-less transfer with no pair, or the
sign fallback), or pairs `i` with some fresh candidate `j` and reports the
event `(i, j)`. -/
theorem classify_spec (P : PatternTables) (ts : List Transaction) (i : Nat) :
    ((classify P ts i).2.1 = ts ∧ (classify P ts i).2.2 = none) ∨
    ∃ j A B, j < ts.length ∧ j ≠ i ∧
      (ts.getD j default).has_pair = false ∧
      A.has_pair = true ∧ B.has_pair = true ∧
      A.flow_type = (ts.getD i default).flow_type ∧
      B.flow_type = (ts.getD j default).flow_type ∧
      (classify P ts i).2.1 = (ts.set i A).set j B ∧
      (classify P ts i).2.2 = some (i, j) := by
  simp only [classify]
  by_cases hex : is_excluded P (ts.getD i default)
  · rw [if_pos hex]; left; exact ⟨rfl, rfl⟩
  · rw [if_neg hex]
    cases hinc : (if 0 < (ts.getD i default).amount then
        check_income_patterns P (ts.getD i default) else none) with
    | some r => left; exact ⟨rfl, rfl⟩
    | none =>
      cases hchk : check_internal_transfer P ts i with
      | mk fst rest =>
        cases rest with
        | mk ts' e =>
          rcases check_internal_transfer_spec P ts i with h |
            ⟨j, A, B, r, hj, hne, hp, hA, hB, hAf, hBf, heq⟩
          · rw [hchk] at h
            have h1 : ts' = ts := congrArg Prod.fst h
            have h2 : e = none := congrArg Prod.snd h
            subst h1; subst h2
            left
            cases fst with
            | some r => exact ⟨rfl, rfl⟩
            | none =>
              dsimp only
              split <;> exact ⟨rfl, rfl⟩
          · rw [hchk] at heq
            have h1 : fst = some r := congrArg Prod.fst heq
            have h2 : ts' = (ts.set i A).set j B :=
              congrArg (fun x => x.2.1) heq
            have h3 : e = some (i, j) := congrArg (fun x => x.2.2) heq
            subst h1; subst h2; subst h3
            right
            exact ⟨j, A, B, hj, hne, hp, hA, hB, hAf, hBf, rfl, rfl⟩

/-- `classify` preserves the batch length. -/
theorem classify_length (P : PatternTables) (ts : List Transaction) (i : Nat) :
    (classify P ts i).2.1.length = ts.length := by
  rcases classify_spec P ts i with ⟨h, _⟩ | ⟨j, A, B, _, _, _, _, _, _, _, h, _⟩ <;>
    simp [h]

/-- `classify` never changes any transaction's flow type (only `classify_all`
writes it, after the call). -/
theorem classify_flow_pres (P : PatternTables) (ts : List Transaction)
    (i k : Nat) :
    (((classify P ts i).2.1).getD k default).flow_type
      = ((ts.getD k default)).flow_type := by
  rcases classify_spec P ts i with ⟨h, _⟩ |
    ⟨j, A, B, hj, hne, hp, hA, hB, hAf, hBf, h, _⟩
  · rw [h]
  · rw [h, getD_set_cases]
    by_cases hjk : j = k ∧ j < (ts.set i A).length
    · rw [if_pos hjk, hBf, hjk.1]
    · rw [if_neg hjk, getD_set_cases]
      by_cases hik : i = k ∧ i < ts.length
      · rw [if_pos hik, hAf, hik.1]
      · rw [if_neg hik]

/-- `classify` never clears a `has_pair` mark. -/
theorem classify_hp_mono (P : PatternTables) (ts : List Transaction)
    (i k : Nat) (h : ((ts.getD k default)).has_pair = true) :
    (((classify P ts i).2.1).getD k default).has_pair = true := by
  rcases classify_spec P ts i with ⟨heq, _⟩ |
    ⟨j, A, B, hj, hne, hp, hA, hB, hAf, hBf, heq, _⟩
  · rw [heq]; exact h
  · rw [heq, getD_set_cases]
    by_cases hjk : j = k ∧ j < (ts.set i A).length
    · rw [if_pos hjk]; exact hB
    · rw [if_neg hjk, getD_set_cases]
      by_cases hik : i = k ∧ i < ts.length
      · rw [if_pos hik]; exact hA
      · rw [if_neg hik]; exact h

/-- When `classify` emits a pairing event at an in-bounds position, the event
is `(i, j)` for a fresh (previously unpaired) candidate `j ≠ i`, and both
positions carry `has_pair = true` afterwards. -/
theorem classify_event_spec (P : PatternTables) (ts : List Transaction)
    (i : Nat) (hi : i < ts.length) {e : Nat × Nat}
    (he : (classify P ts i).2.2 = some e) :
    e.1 = i ∧ e.2 < ts.length ∧ e.2 ≠ i ∧
    (ts.getD e.2 default).has_pair = false ∧
    (((classify P ts i).2.1).getD i default).has_pair = true ∧
    (((classify P ts i).2.1).getD e.2 default).has_pair = true := by
  rcases classify_spec P ts i with ⟨_, h2⟩ |
    ⟨j, A, B, hj, hne, hp, hA, hB, hAf, hBf, hset, he'⟩
  · rw [h2] at he; cases he
  · rw [he'] at he
    injection he with he
    subst he
    refine ⟨rfl, hj, hne, hp, ?_, ?_⟩
    · rw [hset, getD_set_cases]
      rw [if_neg (fun hc => hne hc.1), getD_set_cases,
        if_pos ⟨rfl, hi⟩]
      exact hA
    · rw [hset, getD_set_cases,
        if_pos ⟨rfl, by rw [List.length_set]; exact hj⟩]
      exact hB

/-- Writing the classification result onto position `i` changes no
`has_pair` flag. -/
theorem set_flow_fields_hp (ts' : List Transaction) (i : Nat)
    (r : CategorizationResult) (k : Nat) :
    ((ts'.set i (withClassification (ts'.getD i default) r)).getD k
        default).has_pair
      = ((ts'.getD k default)).has_pair := by
  rw [getD_set_cases]
  by_cases h : i = k ∧ i < ts'.length
  · rw [if_pos h]
    show (ts'.getD i default).has_pair = (ts'.getD k default).has_pair
    rw [h.1]
  · rw [if_neg h]

/-- `classify_all`'s loop preserves the batch length. -/
theorem go_length (P : PatternTables) :
    ∀ (js : List Nat) (ts : List Transaction) (log : List (Nat × Nat)),
      (classifyAllGo P js ts log).1.length = ts.length := by
  intro js
  induction js with
  | nil => intro ts log; rfl
  | cons i js ih =>
    intro ts log
    simp only [classifyAllGo]
    cases hc : classify P ts i with
    | mk r rest =>
      cases rest with
      | mk ts' e =>
        dsimp only
        rw [ih, List.length_set]
        have hl := classify_length P ts i
        rw [hc] at hl
        exact hl

/-- Totality invariant of the loop: every position that is still to be
processed, or already carries a flow type, ends with a flow type. -/
theorem go_flow_total (P : PatternTables) :
    ∀ (js : List Nat) (ts : List Transaction) (log : List (Nat × Nat)),
      (∀ k, k < ts.length →
        (k ∈ js ∨ ((ts.getD k default).flow_type).isSome = true)) →
      ∀ k, k < ts.length →
        (((classifyAllGo P js ts log).1.getD k default).flow_type).isSome
          = true := by
  intro js
  induction js with
  | nil =>
    intro ts log hinv k hk
    rcases hinv k hk with h | h
    · cases h
    · exact h
  | cons i js ih =>
    intro ts log hinv k hk
    simp only [classifyAllGo]
    cases hc : classify P ts i with
    | mk r rest =>
      cases rest with
      | mk ts' e =>
        dsimp only
        have hts' : (classify P ts i).2.1 = ts' := by rw [hc]
        have hlen' : ts'.length = ts.length := by
          rw [← hts', classify_length]
        have hlen'' :
            (ts'.set i (withClassification (ts'.getD i default) r)).length
              = ts.length := by rw [List.length_set, hlen']
        apply ih _ _ _ _ (by rw [hlen'']; exact hk)
        intro k' hk'
        rw [hlen''] at hk'
        by_cases hki : k' = i
        · subst hki
          right
          rw [getD_set_cases, if_pos ⟨rfl, by rw [hlen']; exact hk'⟩]
          rfl
        · rcases hinv k' hk' with hmem | hsome
          · rcases List.mem_cons.mp hmem with h | h
            · exact absurd h.symm (fun h => hki h.symm)
            · exact Or.inl h
          · right
            rw [getD_set_cases, if_neg (fun hc' => hki hc'.1.symm)]
            have := classify_flow_pres P ts i k'
            rw [hc] at this
            rw [this]
            exact hsome

/-- C2.  After `classify_all`, every transaction of the batch carries a flow
type, and it is one of the four enumerated values — classification is total,
no transaction is left with `flow_type` unset: the EXCLUDED / income /
transfer checks and the final amount-sign `if/else` of `classify` cover
every case, and `classify_all` writes the result onto every transaction. -/
theorem classification_totality (P : PatternTables) (ts : List Transaction) :
    ∀ t ∈ (classify_all P ts).1,
      t.flow_type = some .INCOME ∨ t.flow_type = some .EXPENSE ∨
      t.flow_type = some .INTERNAL_TRANSFER ∨ t.flow_type = some .EXCLUDED := by
  intro t ht
  rcases List.mem_iff_getElem.mp ht with ⟨k, hk, hkt⟩
  have hgo : classify_all P ts = classifyAllGo P (List.range ts.length) ts []
    := rfl
  have hk' : k < ts.length := by
    rw [hgo, go_length] at hk
    exact hk
  have hsome := go_flow_total P (List.range ts.length) ts []
    (fun k hkk => Or.inl (List.mem_range.mpr hkk)) k hk'
  rw [← hgo] at hsome
  have hget : (classify_all P ts).1.getD k default = t := by
    rw [List.getD_eq_getElem?_getD, List.getElem?_eq_getElem hk]
    simp only [Option.getD_some]
    exact hkt
  rw [hget] at hsome
  rcases hft : t.flow_type with _ | ft
  · rw [hft] at hsome; simp at hsome
  · cases ft <;> simp [hft]

/-- C2 witness: the totality theorem applied to a concrete one-transaction
batch. -/
theorem classification_totality_witness :
    ((classify_all modelPatternTables [txUser]).1.getD 0 default).flow_type
        = some .INCOME ∨
    ((classify_all modelPatternTables [txUser]).1.getD 0 default).flow_type
        = some .EXPENSE ∨
    ((classify_all modelPatternTables [txUser]).1.getD 0 default).flow_type
        = some .INTERNAL_TRANSFER ∨
    ((classify_all modelPatternTables [txUser]).1.getD 0 default).flow_type
        = some .EXCLUDED :=
  classification_totality modelPatternTables [txUser] _
    (getD_zero_mem default (by decide))

/-- Pairing invariant of `classify_all`'s loop: already-recorded pairing
events keep both their positions marked, their initiators are already
processed, and every recorded candidate was fresh — so in the final log both
sides of every event are marked paired, no candidate ever recurs on either
side of a later event, and initiators never repeat. -/
theorem go_pairs (P : PatternTables) :
    ∀ (js : List Nat) (ts : List Transaction) (log : List (Nat × Nat)),
      (∀ i ∈ js, i < ts.length) →
      js.Nodup →
      (∀ p ∈ log, p.1 ∉ js) →
      (∀ p ∈ log, ((ts.getD p.1 default).has_pair = true ∧
        (ts.getD p.2 default).has_pair = true)) →
      log.Pairwise (fun p q => q.2 ≠ p.1 ∧ q.2 ≠ p.2 ∧ q.1 ≠ p.1) →
      (∀ p ∈ (classifyAllGo P js ts log).2,
        ((classifyAllGo P js ts log).1.getD p.1 default).has_pair = true ∧
        ((classifyAllGo P js ts log).1.getD p.2 default).has_pair = true) ∧
      (classifyAllGo P js ts log).2.Pairwise
        (fun p q => q.2 ≠ p.1 ∧ q.2 ≠ p.2 ∧ q.1 ≠ p.1) := by
  intro js
  induction js with
  | nil =>
    intro ts log _ _ _ h1 h4
    exact ⟨h1, h4⟩
  | cons i js ih =>
    intro ts log hbound hnd h2 h1 h4
    simp only [classifyAllGo]
    cases hc : classify P ts i with
    | mk r rest =>
      cases rest with
      | mk ts' e =>
        dsimp only
        have hts' : (classify P ts i).2.1 = ts' := by rw [hc]
        have hlen' : ts'.length = ts.length := by rw [← hts', classify_length]
        have hi : i < ts.length := hbound i (List.mem_cons_self _ _)
        have hmono : ∀ k, (ts.getD k default).has_pair = true →
            ((ts'.set i (withClassification (ts'.getD i default) r)).getD k
              default).has_pair = true := by
          intro k hk
          rw [set_flow_fields_hp]
          have hm := classify_hp_mono P ts i k hk
          rw [hts'] at hm
          exact hm
        cases e with
        | none =>
          simp only [Option.toList, List.append_nil]
          apply ih
          · intro i' hi'
            rw [List.length_set, hlen']
            exact hbound i' (List.mem_cons_of_mem _ hi')
          · exact hnd.of_cons
          · exact fun p hp hmem => h2 p hp (List.mem_cons_of_mem _ hmem)
          · exact fun p hp => ⟨hmono _ (h1 p hp).1, hmono _ (h1 p hp).2⟩
          · exact h4
        | some ev =>
          have hce : (classify P ts i).2.2 = some ev := by rw [hc]
          obtain ⟨hev1, hev2len, hev2ne, hevfresh, hpi, hpj⟩ :=
            classify_event_spec P ts i hi hce
          rw [hts'] at hpi hpj
          simp only [Option.toList]
          apply ih
          · intro i' hi'
            rw [List.length_set, hlen']
            exact hbound i' (List.mem_cons_of_mem _ hi')
          · exact hnd.of_cons
          · intro p hp
            rcases List.mem_append.mp hp with hpl | hpe
            · exact fun hmem => h2 p hpl (List.mem_cons_of_mem _ hmem)
            · rcases List.mem_singleton.mp hpe with rfl
              rw [hev1]
              exact (List.nodup_cons.mp hnd).1
          · intro p hp
            rcases List.mem_append.mp hp with hpl | hpe
            · exact ⟨hmono _ (h1 p hpl).1, hmono _ (h1 p hpl).2⟩
            · rcases List.mem_singleton.mp hpe with rfl
              constructor
              · rw [hev1, set_flow_fields_hp]
                exact hpi
              · rw [set_flow_fields_hp]
                exact hpj
          · rw [List.pairwise_append]
            refine ⟨h4, List.pairwise_singleton _ _, ?_⟩
            intro p hpl q hq
            rcases List.mem_singleton.mp hq with rfl
            refine ⟨?_, ?_, ?_⟩
            · intro hcontra
              have hh := (h1 p hpl).1
              rw [← hcontra, hevfresh] at hh
              cases hh
            · intro hcontra
              have hh := (h1 p hpl).2
              rw [← hcontra, hevfresh] at hh
              cases hh
            · rw [hev1]
              intro hcontra
              exact h2 p hpl (hcontra ▸ List.mem_cons_self i js)

/-- C4 (amended).  Over a whole `classify_all` pass, with the pairing events
`(initiator, candidate)` recorded in order: (a) both sides of every pairing
event end the pass with `has_pair = true` (the symmetry half of the claim
holds); (b) initiators never repeat, and a candidate is always fresh — it
appears on NEITHER side of any earlier event (the scan skips candidates with
`has_pair` set).  The claim's stronger "every transaction participates in at
most one pair" still fails, because `_find_transfer_pair` never checks the
scanning transaction's own `has_pair`: a transaction already paired as a
CANDIDATE can later initiate a second pair when its own turn comes (see the
counterexample). -/
theorem transfer_pairing_amended (P : PatternTables) (ts : List Transaction) :
    (∀ p ∈ (classify_all P ts).2,
      ((classify_all P ts).1.getD p.1 default).has_pair = true ∧
      ((classify_all P ts).1.getD p.2 default).has_pair = true) ∧
    (classify_all P ts).2.Pairwise
      (fun p q => q.2 ≠ p.1 ∧ q.2 ≠ p.2 ∧ q.1 ≠ p.1) :=
  go_pairs P (List.range ts.length) ts []
    (fun i hi => List.mem_range.mp hi) (List.nodup_range _)
    (by intro p hp; cases hp) (by intro p hp; cases hp) List.Pairwise.nil

/-- A pattern-less debit of 100.00 on Jan 10. -/
def txPair1 : Transaction := mkTransaction dJan "AAA" (-10000) 100

/-- A pattern-less credit of 100.00 on Jan 10 (opposite of both others). -/
def txPair2 : Transaction := mkTransaction dJan "BBB" 10000 100

/-- A second pattern-less debit of 100.00 on Jan 10. -/
def txPair3 : Transaction := mkTransaction dJan "CCC" (-10000) 100

/-- C4 counterexample.  On the batch `[−100, +100, −100]` (no pattern
matches), `classify_all` records the pairing events `(0, 1)` and then
`(1, 2)`: transaction 1 is first paired with 0 as a candidate, and later —
its own `has_pair` never being checked — initiates a second pair with 2, so
it participates in two pairs with two different partners, refuting the
claim's "a transaction already marked as paired is never paired again". -/
theorem transfer_pairing_cex :
    (classify_all modelPatternTables [txPair1, txPair2, txPair3]).2
      = [(0, 1), (1, 2)] ∧
    (0, 1) ∈ (classify_all modelPatternTables [txPair1, txPair2, txPair3]).2 ∧
    (1, 2) ∈ (classify_all modelPatternTables [txPair1, txPair2, txPair3]).2 ∧
    ((0, 1) : Nat × Nat) ≠ (1, 2) := by
  refine ⟨by decide, by decide, by decide, by decide⟩

/-- C4 witness: the pairing theorem applied to the three-transaction batch;
the first event's two sides are both marked paired at the end. -/
theorem transfer_pairing_amended_witness :
    ((classify_all modelPatternTables [txPair1, txPair2, txPair3]).1.getD 0
        default).has_pair = true ∧
    ((classify_all modelPatternTables [txPair1, txPair2, txPair3]).1.getD 1
        default).has_pair = true :=
  (transfer_pairing_amended modelPatternTables
    [txPair1, txPair2, txPair3]).1 (0, 1) (by decide)
